import Mathlib

/-!
Verification of the FMPFeedbackGCPService cloud functions.

This file gives a shallow embedding of the four handlers
(`fmpfeedback_upload`, `fmpfeedback_comment`, `fmpfeedback_caretaker`,
`fmpfeedback_mailgun`) found under `src/cloudfunctions`, together with
theorems settling the behavioural claims about them.

Modelling conventions:
- The Firestore collection is an association list from document id to
  `FeedbackDoc`; each document's `uploads` subcollection is an association
  list from the parent id to its list of `UploadDoc`s.
- Python string truthiness is modelled by comparison with the empty string.
- Document creation timestamps (ISO strings parsed by `datetime.fromisoformat`
  in the source) are modelled as integers (seconds); the order on parsed
  datetimes coincides with the numeric order.  `archivedTimestamp` keeps its
  string form because the empty string is its explicit sentinel.
- External effects (the Mailgun HTTP POST, the Pub/Sub publish) are modelled
  by explicit parameters describing the outcome of the call; the store id
  generated by a Firestore `add` is a parameter as well.
-/

namespace FMPFeedback

/-- Python `str.removesuffix`: drop the suffix iff the string ends with it. -/
def removeSuffix (s suf : String) : String :=
  if suf.data.isSuffixOf s.data then s.dropRight suf.length else s

/-! ## Constants (from the `Constants` blocks of the four handler modules) -/

/-- Constant `FEEDBACK_MAX_PENDING_SUBMITS = 5` (shared by upload and comment). -/
def FEEDBACK_MAX_PENDING_SUBMITS : Nat := 5

/-- Constant `FEEDBACK_MAX_UPLOADS = 10`. -/
def FEEDBACK_MAX_UPLOADS : Nat := 10

/-- Constant `FEEDBACK_MAX_UPLOAD_SIZE = 1 * 1024 * 1024`. -/
def FEEDBACK_MAX_UPLOAD_SIZE : Nat := 1048576

/-- Constant `FEEDBACK_PUBSUB_ACTION_NEWFEEDBACK = "feedbackSumitted"` (the literal as
written in `fmpfeedback_comment/main.py`, `fmpfeedback_caretaker/main.py` and
`fmpfeedback_mailgun/main.py`; note the spelling). -/
def FEEDBACK_PUBSUB_ACTION_NEWFEEDBACK : String := "feedbackSumitted"

/-- Constant `FEEDBACK_PUBSUB_ACTION_CARETAKER_RETRY = "caretakerRetry"`. -/
def FEEDBACK_PUBSUB_ACTION_CARETAKER_RETRY : String := "caretakerRetry"

/-- The placeholder payload stored for an over-limit upload:
`f"This upload was ignored; upload limit is {FEEDBACK_MAX_UPLOADS}"`. -/
def UPLOAD_IGNORED_PLACEHOLDER : String := "This upload was ignored; upload limit is 10"

/-! ## Data model -/

/-- A feedback document, with the fields written by the handlers.
`mailgunMessageId` is only ever set by the mailgun handler; the empty string
stands for the absent field. -/
structure FeedbackDoc where
  archivedTimestamp : String
  clientIp : String
  feedbackTimestamp : Int
  feedbackEmail : String
  hasUploads : Bool
  feedbackMessage : String
  feedbackName : String
  feedbackSubject : String
  mailgunMessageId : String
deriving Repr, DecidableEq

/-- Constant `FEEDBACK_EMPTY_DOC`: every string field is the empty sentinel and
`hasUploads` is false.  (The source stores the empty string for the creation
timestamp; creation always overrides it, modelled here as `0`.) -/
def FEEDBACK_EMPTY_DOC : FeedbackDoc :=
  { archivedTimestamp := ""
    clientIp := ""
    feedbackTimestamp := 0
    feedbackEmail := ""
    hasUploads := false
    feedbackMessage := ""
    feedbackName := ""
    feedbackSubject := ""
    mailgunMessageId := "" }

/-- A child upload document. The source only writes `uploadIgnored` when it is
true; the absent field is modelled as `false`. -/
structure UploadDoc where
  filename : String
  data : String
  contentLength : Nat
  uploadIgnored : Bool
deriving Repr, DecidableEq

/-- The Firestore state the handlers read and write: the feedback collection
and, per parent document id, its `uploads` subcollection. -/
structure Store where
  docs : List (String × FeedbackDoc)
  uploads : List (String × List UploadDoc)
deriving Repr, DecidableEq

/-- Lookup of a feedback document by id. -/
def Store.lookupDoc (s : Store) (docId : String) : Option FeedbackDoc :=
  s.docs.lookup docId

/-- The `uploads` subcollection of a document id (empty when the document has
no children; Firestore returns the empty result set for a missing parent). -/
def Store.uploadsOf (s : Store) (docId : String) : List UploadDoc :=
  (s.uploads.lookup docId).getD []

/-- Replace the document stored under `docId` (the Firestore field-merging `update`,
after the handler has merged the changed fields). Ids other than `docId` are
untouched; a missing id leaves the list unchanged. -/
def setDoc (docs : List (String × FeedbackDoc)) (docId : String) (d : FeedbackDoc) :
    List (String × FeedbackDoc) :=
  match docs with
  | [] => []
  | (k, v) :: rest => if k = docId then (k, d) :: rest else (k, v) :: setDoc rest docId d

/-- Append one upload child under `docId` (Firestore subcollection `add`). -/
def addUpload (ups : List (String × List UploadDoc)) (docId : String) (u : UploadDoc) :
    List (String × List UploadDoc) :=
  match ups with
  | [] => [(docId, [u])]
  | (k, v) :: rest =>
      if k = docId then (k, v ++ [u]) :: rest else (k, v) :: addUpload rest docId u

/-- The open-record count for an email address: documents whose
`feedbackEmail` equals the address and whose `archivedTimestamp` is the empty
sentinel (the `where(...).where(...)` query shared by upload and comment). -/
def countOpenFor (docs : List (String × FeedbackDoc)) (email : String) : Nat :=
  docs.countP (fun kv => kv.2.feedbackEmail == email && kv.2.archivedTimestamp == "")

/-- The number of non-placeholder children in an uploads subcollection. -/
def nonPlaceholderCount (l : List UploadDoc) : Nat :=
  l.countP (fun u => !u.uploadIgnored)

/-! ## Upload Ingestion (`fmpfeedback_upload/main.py`) -/

/-- The request data the upload handler reads: HTTP basic auth fields, the
`filename` and optional `token` query parameters (a missing parameter is
`none`), the content type, and the raw body (bytes, modelled as a string). -/
structure UploadRequest where
  authUsername : String
  authToken : String
  filename : Option String
  contentType : String
  data : String
  token : Option String
  clientIp : String
deriving Repr, DecidableEq

/-- The upload handler's response: the JSON token payload on success, or the
plain-text error code (returned with HTTP status 400 in the source). -/
inductive UploadResponse where
  | ok (token : String)
  | err (msg : String)
deriving Repr, DecidableEq

/-- Result of one upload call: the response plus the store state after it. -/
structure UploadOutcome where
  response : UploadResponse
  store : Store
deriving Repr, DecidableEq

/-- Reading `request.args.get("token")` followed by the source's truthiness tests:
a missing or empty token parameter means "no token". -/
def normalizeToken (t : Option String) : Option String :=
  match t with
  | none => none
  | some v => if v = "" then none else some v

/-- The body of `fmpfeedback_upload` (POST path).  `cfg` is
`FEEDBACK_SENDER_AUTHTOKEN`, `now` the current time, `newId` the id Firestore
generates for a newly added document. -/
def fmpfeedback_upload (cfg : String) (s : Store) (now : Int) (newId : String)
    (req : UploadRequest) : UploadOutcome :=
  let email := removeSuffix req.authUsername "/token"
  if req.authUsername = "" then ⟨.err "BAD AUTH", s⟩
  else if email = req.authUsername then ⟨.err "BAD AUTH", s⟩
  else if req.authToken = "" then ⟨.err "BAD TOKEN", s⟩
  else if req.authToken ≠ cfg then ⟨.err "BAD TOKEN", s⟩
  else
    match req.filename with
    | none => ⟨.err "BAD FILENAME", s⟩
    | some fname =>
      if fname = "" then ⟨.err "BAD FILENAME", s⟩
      else if req.contentType ≠ "application/binary" then ⟨.err "BAD CONTENT", s⟩
      else if req.data = "" then ⟨.err "BAD DATA", s⟩
      else if req.data.length > FEEDBACK_MAX_UPLOAD_SIZE then ⟨.err "BAD DATA", s⟩
      else
        match normalizeToken req.token with
        | some t =>
          let existing := s.uploadsOf t
          let u : UploadDoc :=
            if existing.length ≥ FEEDBACK_MAX_UPLOADS then
              { filename := fname
                data := UPLOAD_IGNORED_PLACEHOLDER
                contentLength := UPLOAD_IGNORED_PLACEHOLDER.length
                uploadIgnored := true }
            else
              { filename := fname
                data := req.data
                contentLength := req.data.length
                uploadIgnored := false }
          ⟨.ok t, { s with uploads := addUpload s.uploads t u }⟩
        | none =>
          if countOpenFor s.docs email ≥ FEEDBACK_MAX_PENDING_SUBMITS then
            ⟨.err "TOO MUCH FEEDBACK", s⟩
          else
            let d : FeedbackDoc :=
              { FEEDBACK_EMPTY_DOC with
                feedbackEmail := email
                feedbackTimestamp := now
                clientIp := req.clientIp
                hasUploads := true }
            let u : UploadDoc :=
              { filename := fname
                data := req.data
                contentLength := req.data.length
                uploadIgnored := false }
            ⟨.ok newId, { docs := s.docs ++ [(newId, d)], uploads := addUpload s.uploads newId u }⟩

/-! ## Comment Finalization (`fmpfeedback_comment/main.py`) -/

/-- The request data the comment handler reads: auth fields, content type,
and the JSON body's fields (`none` models a missing key, which raises
`KeyError` in the source; `name` uses `.get`, and `uploads` is the optional
token collection of which the first element is used). -/
structure CommentRequest where
  authUsername : String
  authToken : String
  contentType : String
  email : Option String
  subject : Option String
  body : Option String
  name : Option String
  uploads : Option (List String)
  clientIp : String
deriving Repr, DecidableEq

/-- The comment handler's response: `"OK"`, or a plain-text error code
(returned with HTTP status 400 in the source). -/
inductive CommentResponse where
  | okResp
  | err (msg : String)
deriving Repr, DecidableEq

/-- A Pub/Sub notification message as published to the `fmpfeedback` topic. -/
structure PubsubMsg where
  feedbackAction : String
  feedbackDocId : String
deriving Repr, DecidableEq

/-- Result of one comment call: response, the store after it, and the
notification event published (if the call reached a successful publish). -/
structure CommentOutcome where
  response : CommentResponse
  store : Store
  published : Option PubsubMsg
deriving Repr, DecidableEq

/-- Reading `feedback_json["comment"].get("uploads")` followed by the source's
truthiness test and `next(iter(...))`: a missing key, an empty collection, or
an empty first token all leave the call token-less. -/
def firstUploadToken (ups : Option (List String)) : Option String :=
  match ups with
  | none => none
  | some [] => none
  | some (h :: _) => if h = "" then none else some h

/-- The body of `fmpfeedback_comment` (POST path).  `cfg` is
`FEEDBACK_SENDER_AUTHTOKEN`, `now` the current time, `newId` the id Firestore
generates for a newly added document, `pubsubOk` whether the Pub/Sub publish
succeeds.  A token that references no document makes the Firestore `update`
raise, surfaced as `FIRESTORE FAIL`. -/
def fmpfeedback_comment (cfg : String) (s : Store) (now : Int) (newId : String)
    (pubsubOk : Bool) (req : CommentRequest) : CommentOutcome :=
  if req.contentType ≠ "application/json" then ⟨.err "BAD CONTENT", s, none⟩
  else if req.authToken = "" then ⟨.err "BAD TOKEN", s, none⟩
  else if req.authToken ≠ cfg then ⟨.err "BAD TOKEN", s, none⟩
  else
    match req.email, req.subject, req.body with
    | some email, some subject, some body =>
      if email = "" then ⟨.err "BAD DATA", s, none⟩
      else if subject = "" then ⟨.err "BAD DATA", s, none⟩
      else if body = "" then ⟨.err "BAD DATA", s, none⟩
      else if req.authUsername = "" then ⟨.err "BAD AUTH", s, none⟩
      else if req.authUsername ≠ email ++ "/token" then ⟨.err "BAD AUTH", s, none⟩
      else
        match firstUploadToken req.uploads with
        | some t =>
          match s.docs.lookup t with
          | none => ⟨.err "FIRESTORE FAIL", s, none⟩
          | some d =>
            let d2 :=
              { d with
                feedbackSubject := subject
                feedbackMessage := body
                feedbackName :=
                  match req.name with
                  | some n => if n = "" then d.feedbackName else n
                  | none => d.feedbackName }
            let s2 : Store := { s with docs := setDoc s.docs t d2 }
            if pubsubOk then ⟨.okResp, s2, some ⟨FEEDBACK_PUBSUB_ACTION_NEWFEEDBACK, t⟩⟩
            else ⟨.err "PUBSUB FAIL", s2, none⟩
        | none =>
          if countOpenFor s.docs email ≥ FEEDBACK_MAX_PENDING_SUBMITS then
            ⟨.err "TOO MUCH FEEDBACK", s, none⟩
          else
            let d : FeedbackDoc :=
              { FEEDBACK_EMPTY_DOC with
                feedbackSubject := subject
                feedbackMessage := body
                feedbackName :=
                  match req.name with
                  | some n => n
                  | none => ""
                feedbackEmail := email
                feedbackTimestamp := now
                clientIp := req.clientIp }
            let s2 : Store := { s with docs := s.docs ++ [(newId, d)] }
            if pubsubOk then ⟨.okResp, s2, some ⟨FEEDBACK_PUBSUB_ACTION_NEWFEEDBACK, newId⟩⟩
            else ⟨.err "PUBSUB FAIL", s2, none⟩
    | _, _, _ => ⟨.err "BAD DATA", s, none⟩

/-! ## Notification Delivery (`fmpfeedback_mailgun/main.py`) -/

/-- One `("attachment", (filename, data, mime_type or ""))` entry of the
`files` list passed to the Mailgun POST. -/
structure EmailAttachment where
  filename : String
  data : String
  mimeType : String
deriving Repr, DecidableEq

/-- The message data handed to the Mailgun POST. -/
structure EmailMessage where
  sender : String
  recipient : String
  subject : String
  text : String
  replyTo : String
  attachments : List EmailAttachment
deriving Repr, DecidableEq

/-- Python `email.utils.formataddr`: with a real name, `"name <addr>"`; with the
falsy name the bare address. -/
def formatAddr (name : Option String) (addr : String) : String :=
  match name with
  | none => addr
  | some n => n ++ " <" ++ addr ++ ">"

/-- Outcome of the `requests.post` to the Mailgun API together with
`raise_for_status`: the message was accepted (response JSON carries the id),
the response carried an HTTP error status (`HTTPError`), or the request
itself raised (`RequestException`). -/
inductive TransportResult where
  | accepted (rawId : String)
  | httpError
  | requestError
deriving Repr, DecidableEq

/-- What one `_fmpfeedback_mailgun_send` invocation did: its boolean return
value, whether the Mailgun POST was attempted, the message handed to that
POST (`none` when no POST was made), and the feedback document after the
call. -/
structure SendResult where
  retval : Bool
  transportCalled : Bool
  transportMessage : Option EmailMessage
  newDoc : FeedbackDoc
deriving Repr, DecidableEq

/-- Reading `response_json["id"][1:-1]`: strip the surrounding angle brackets from the
Mailgun message id. -/
def stripIdBrackets (s : String) : String :=
  (s.drop 1).dropRight 1

/-- The attachment list built from the `uploads` subcollection: one entry per
child document, with the MIME type guessed from the filename (empty when the
guess fails).  The source iterates over every child; it does not consult
`uploadIgnored`. -/
def buildAttachments (guessType : String → Option String) (uploadDocs : List UploadDoc) :
    List EmailAttachment :=
  uploadDocs.map (fun u =>
    { filename := u.filename, data := u.data, mimeType := (guessType u.filename).getD "" })

/-- The attachment list as the specification describes it: one attachment per
non-placeholder child only.  (Stated from the spec's words, for comparison
with `buildAttachments`, which is translated from the source.) -/
def buildAttachmentsSpecModel (guessType : String → Option String)
    (uploadDocs : List UploadDoc) : List EmailAttachment :=
  (uploadDocs.filter (fun u => !u.uploadIgnored)).map (fun u =>
    { filename := u.filename, data := u.data, mimeType := (guessType u.filename).getD "" })

/-- The body of `_fmpfeedback_mailgun_send`.  `guessType` models
`mimetypes.guess_type`, `senderAddr` is `MAILGUN_SENDER_ADDR`, `recipient`
is `MAILGUN_RECIPIENT`, `nowIso` the `datetime.utcnow().isoformat()` string,
`transport` the outcome of the Mailgun POST, `doc` the feedback document and
`uploadDocs` its `uploads` subcollection.

Faithful to the source, the empty-field check on email/subject/message only
logs: the inner helper's `False` is computed but not returned, so the
function falls through and still attempts the POST.  Likewise, on a transport
exception the helper's `False` is discarded and the function falls through to
its final `return True`, leaving the document unchanged. -/
def mailgunSend (guessType : String → Option String) (senderAddr recipient nowIso : String)
    (transport : TransportResult) (doc : FeedbackDoc) (uploadDocs : List UploadDoc) :
    SendResult :=
  if doc.archivedTimestamp ≠ "" then
    { retval := true, transportCalled := false, transportMessage := none, newDoc := doc }
  else
    let attachments := if doc.hasUploads then buildAttachments guessType uploadDocs else []
    let nameOpt : Option String :=
      if doc.feedbackName = "" then none else some doc.feedbackName
    let replyTo := formatAddr nameOpt doc.feedbackEmail
    let sender := formatAddr (some (replyTo ++ " via")) senderAddr
    let msg : EmailMessage :=
      { sender := sender
        recipient := recipient
        subject := doc.feedbackSubject
        text := doc.feedbackMessage
        replyTo := replyTo
        attachments := attachments }
    match transport with
    | .accepted rawId =>
      { retval := true
        transportCalled := true
        transportMessage := some msg
        newDoc :=
          { doc with
            archivedTimestamp := nowIso
            mailgunMessageId := stripIdBrackets rawId } }
    | .httpError =>
      { retval := true, transportCalled := true, transportMessage := some msg, newDoc := doc }
    | .requestError =>
      { retval := true, transportCalled := true, transportMessage := some msg, newDoc := doc }

/-- How `fmpfeedback_mailgun_pubsub` classifies an incoming Pub/Sub message
before loading the document: each `ignored` outcome is a normal return (the
message is acknowledged, the handler does not fail). -/
inductive PubsubOutcome where
  | ignoredMissingAction
  | ignoredForeignAction
  | ignoredMissingDocId
  | deliver (docId : String)
deriving Repr, DecidableEq

/-- The action/doc-id dispatch of `fmpfeedback_mailgun_pubsub`: a missing or
empty action is ignored, an action other than the two recognized literals is
ignored, a missing or empty doc id is ignored, and otherwise delivery for the
named document proceeds. -/
def pubsubDispatch (action docId : Option String) : PubsubOutcome :=
  match action with
  | none => .ignoredMissingAction
  | some a =>
    if a = "" then .ignoredMissingAction
    else if a ≠ FEEDBACK_PUBSUB_ACTION_NEWFEEDBACK ∧ a ≠ FEEDBACK_PUBSUB_ACTION_CARETAKER_RETRY then
      .ignoredForeignAction
    else
      match docId with
      | none => .ignoredMissingDocId
      | some i => if i = "" then .ignoredMissingDocId else .deliver i

/-! ## Caretaker Reconciliation (`fmpfeedback_caretaker/main.py`) -/

/-- The orphan-reaping scan of `fmpfeedback_caretaker`: stream the documents
matching `where(feedbackMessage, "==", "")` and delete each whose creation
timestamp is at or before `now` minus five minutes (300 seconds).  The scan
does not consult `archivedTimestamp`. -/
def orphanScan (now : Int) (docs : List (String × FeedbackDoc)) :
    List (String × FeedbackDoc) :=
  match docs with
  | [] => []
  | (k, d) :: rest =>
    if d.feedbackMessage = "" ∧ d.feedbackTimestamp ≤ now - 300 then
      orphanScan now rest
    else
      (k, d) :: orphanScan now rest

/-- The deletion condition the specification states for the orphan scan:
`archivedAt` empty, message empty, and older than the five-minute grace
window.  (Stated from the spec's words, for comparison with `orphanScan`,
which is translated from the source.) -/
def orphanSpecDeletes (now : Int) (d : FeedbackDoc) : Prop :=
  d.archivedTimestamp = "" ∧ d.feedbackMessage = "" ∧ d.feedbackTimestamp ≤ now - 300

instance (now : Int) (d : FeedbackDoc) : Decidable (orphanSpecDeletes now d) := by
  unfold orphanSpecDeletes
  infer_instance

/-! ## Sample values used by witnesses and counterexamples -/

/-- An already-archived feedback document. -/
def sampleArchivedDoc : FeedbackDoc :=
  { FEEDBACK_EMPTY_DOC with
    archivedTimestamp := "2021-06-01T00:00:00"
    feedbackEmail := "user@example.com"
    feedbackMessage := "It crashed"
    feedbackSubject := "Bug" }

/-- An open (not yet archived) feedback document with all mail fields set. -/
def sampleOpenDoc : FeedbackDoc :=
  { FEEDBACK_EMPTY_DOC with
    feedbackEmail := "user@example.com"
    feedbackMessage := "It crashed"
    feedbackSubject := "Bug" }

/-- An open draft: `feedbackMessage` still empty, uploads present. -/
def sampleDraftDoc : FeedbackDoc :=
  { FEEDBACK_EMPTY_DOC with
    feedbackEmail := "user@example.com"
    feedbackSubject := "Bug"
    hasUploads := true }

/-- An archived record whose `feedbackMessage` is still empty (reachable via
the missing-return slip in the mailgun sender's field check). -/
def sampleArchivedDraft : FeedbackDoc :=
  { FEEDBACK_EMPTY_DOC with
    archivedTimestamp := "2021-06-01T00:00:00"
    feedbackEmail := "user@example.com"
    feedbackSubject := "Bug"
    hasUploads := true }

/-- An accepted (non-placeholder) child upload. -/
def sampleAcceptedUpload : UploadDoc :=
  { filename := "shot.png"
    data := "bytes"
    contentLength := 5
    uploadIgnored := false }

/-- An over-limit child whose payload was replaced by the placeholder. -/
def sampleIgnoredUpload : UploadDoc :=
  { filename := "crash.log"
    data := UPLOAD_IGNORED_PLACEHOLDER
    contentLength := UPLOAD_IGNORED_PLACEHOLDER.length
    uploadIgnored := true }

/-! ## Helper lemmas -/

theorem append_token_ne_empty (email : String) : email ++ "/token" ≠ "" := by
  intro h
  have hlen : (email ++ "/token").length = 0 := by rw [h]; rfl
  rw [String.length_append] at hlen
  have h6 : ("/token" : String).length = 6 := rfl
  omega

theorem lookup_addUpload (ups : List (String × List UploadDoc)) (docId : String)
    (u : UploadDoc) (k : String) :
    (addUpload ups docId u).lookup k =
      if k = docId then some (((ups.lookup docId).getD []) ++ [u]) else ups.lookup k := by
  induction ups with
  | nil =>
    by_cases h : k = docId
    · subst h
      simp [addUpload, List.lookup]
    · have hb : (k == docId) = false := beq_eq_false_iff_ne.mpr h
      simp [addUpload, List.lookup, hb, h]
  | cons hd tl ih =>
    obtain ⟨k', v⟩ := hd
    by_cases h1 : k' = docId
    · subst h1
      by_cases h2 : k = k'
      · subst h2
        simp [addUpload, List.lookup]
      · have hb : (k == k') = false := beq_eq_false_iff_ne.mpr h2
        simp [addUpload, List.lookup, hb, h2]
    · by_cases h2 : k = k'
      · subst h2
        have hb : (docId == k) = false := beq_eq_false_iff_ne.mpr (fun he => h1 he.symm)
        simp [addUpload, List.lookup, h1, Ne.symm h1, hb]
      · have hb : (k == k') = false := beq_eq_false_iff_ne.mpr h2
        have hb2 : (docId == k') = false := beq_eq_false_iff_ne.mpr (fun he => h1 he.symm)
        simp [addUpload, List.lookup, h1, hb, hb2, ih]

theorem nonPlaceholderCount_append (l : List UploadDoc) (u : UploadDoc) :
    nonPlaceholderCount (l ++ [u]) =
      nonPlaceholderCount l + (if u.uploadIgnored then 0 else 1) := by
  unfold nonPlaceholderCount
  rw [List.countP_append]
  cases hu : u.uploadIgnored <;> simp [List.countP_cons, hu]

theorem nonPlaceholderCount_le_length (l : List UploadDoc) :
    nonPlaceholderCount l ≤ l.length :=
  l.countP_le_length _

/-! ## Claim theorems -/

/-- C1: on a feedback record whose `archivedTimestamp` is non-empty,
`_fmpfeedback_mailgun_send` is a no-op returning success: no transport call,
no message composed, record unchanged.  Consequently a second delivery after a
successful first one (which stamps a non-empty `archivedTimestamp`) makes no
transport call and does not restamp the record. -/
theorem mailgun_archived_noop :
    (∀ g sa rc now tr doc ups, doc.archivedTimestamp ≠ "" →
       mailgunSend g sa rc now tr doc ups =
         { retval := true, transportCalled := false, transportMessage := none,
           newDoc := doc }) ∧
    (∀ g sa rc now rawId doc ups g2 sa2 rc2 now2 tr2 ups2,
       doc.archivedTimestamp = "" → now ≠ "" →
       mailgunSend g2 sa2 rc2 now2 tr2
           (mailgunSend g sa rc now (.accepted rawId) doc ups).newDoc ups2 =
         { retval := true, transportCalled := false, transportMessage := none,
           newDoc := (mailgunSend g sa rc now (.accepted rawId) doc ups).newDoc }) := by
  have guard : ∀ g sa rc now tr doc ups, doc.archivedTimestamp ≠ "" →
      mailgunSend g sa rc now tr doc ups =
        { retval := true, transportCalled := false, transportMessage := none,
          newDoc := doc } := by
    intro g sa rc now tr doc ups h
    unfold mailgunSend
    rw [if_pos h]
  refine ⟨guard, ?_⟩
  intro g sa rc now rawId doc ups g2 sa2 rc2 now2 tr2 ups2 h hn
  have h1 : (mailgunSend g sa rc now (.accepted rawId) doc ups).newDoc.archivedTimestamp
      = now := by
    unfold mailgunSend
    rw [if_neg (by simp [h])]
  exact guard g2 sa2 rc2 now2 tr2 _ ups2 (by rw [h1]; exact hn)

/-- Witness for `mailgun_archived_noop` at concrete inputs. -/
theorem mailgun_archived_noop_witness :
    (mailgunSend (fun _ => none) "sndr@example.com" "rcpt@example.com"
        "2021-06-02T00:00:00" .httpError sampleArchivedDoc [] =
      { retval := true, transportCalled := false, transportMessage := none,
        newDoc := sampleArchivedDoc }) ∧
    (mailgunSend (fun _ => none) "sndr@example.com" "rcpt@example.com"
        "2021-06-03T00:00:00" .requestError
        (mailgunSend (fun _ => none) "sndr@example.com" "rcpt@example.com"
          "2021-06-02T00:00:00" (.accepted "<mid@mailgun>") sampleOpenDoc []).newDoc [] =
      { retval := true, transportCalled := false, transportMessage := none,
        newDoc := (mailgunSend (fun _ => none) "sndr@example.com" "rcpt@example.com"
          "2021-06-02T00:00:00" (.accepted "<mid@mailgun>") sampleOpenDoc []).newDoc }) :=
  ⟨mailgun_archived_noop.1 (fun _ => none) "sndr@example.com" "rcpt@example.com"
      "2021-06-02T00:00:00" .httpError sampleArchivedDoc [] (by decide),
   mailgun_archived_noop.2 (fun _ => none) "sndr@example.com" "rcpt@example.com"
      "2021-06-02T00:00:00" "<mid@mailgun>" sampleOpenDoc [] (fun _ => none)
      "sndr@example.com" "rcpt@example.com" "2021-06-03T00:00:00" .requestError []
      (by decide) (by decide)⟩

/-- C2: evaluation of the code on an open record with a failing transport
call: the record is indeed left unchanged (`archivedTimestamp` stays empty,
no `mailgunMessageId` written), but the function returns `true`, not the
failure the claim states, because the source discards the inner helper's
`False` and falls through to its final `return True`. -/
theorem mailgun_transport_failure_returns_true :
    ∀ g sa rc now tr doc ups, doc.archivedTimestamp = "" →
      (tr = .httpError ∨ tr = .requestError) →
      (mailgunSend g sa rc now tr doc ups).newDoc = doc ∧
      (mailgunSend g sa rc now tr doc ups).retval = true := by
  intro g sa rc now tr doc ups h htr
  unfold mailgunSend
  rw [if_neg (by simp [h])]
  rcases htr with h1 | h1 <;> subst h1 <;> exact ⟨rfl, rfl⟩

/-- Witness for `mailgun_transport_failure_returns_true` at concrete inputs. -/
theorem mailgun_transport_failure_returns_true_witness :
    (mailgunSend (fun _ => none) "sndr@example.com" "rcpt@example.com"
        "2021-06-02T00:00:00" .httpError sampleOpenDoc []).newDoc = sampleOpenDoc ∧
    (mailgunSend (fun _ => none) "sndr@example.com" "rcpt@example.com"
        "2021-06-02T00:00:00" .httpError sampleOpenDoc []).retval = true :=
  mailgun_transport_failure_returns_true (fun _ => none) "sndr@example.com"
    "rcpt@example.com" "2021-06-02T00:00:00" .httpError sampleOpenDoc []
    (by decide) (Or.inl rfl)

/-- C3: evaluation of the code on an open record with an empty mandatory
field (`feedbackMessage`): the violation only produces a log line, the
helper's `False` is not returned, so the transport call is still made for
every transport outcome, and a successful transport stamps
`archivedTimestamp` — the event is not dropped as the claim states. -/
theorem mailgun_empty_field_still_sends :
    ∀ g sa rc now rawId doc ups, doc.archivedTimestamp = "" →
      doc.feedbackMessage = "" →
      (∀ tr, (mailgunSend g sa rc now tr doc ups).transportCalled = true) ∧
      (mailgunSend g sa rc now (.accepted rawId) doc ups).newDoc.archivedTimestamp
        = now := by
  intro g sa rc now rawId doc ups h _hmsg
  constructor
  · intro tr
    unfold mailgunSend
    rw [if_neg (by simp [h])]
    cases tr <;> rfl
  · unfold mailgunSend
    rw [if_neg (by simp [h])]

/-- Witness for `mailgun_empty_field_still_sends` at concrete inputs. -/
theorem mailgun_empty_field_still_sends_witness :
    (mailgunSend (fun _ => none) "sndr@example.com" "rcpt@example.com"
        "2021-06-02T00:00:00" .requestError sampleDraftDoc []).transportCalled = true ∧
    (mailgunSend (fun _ => none) "sndr@example.com" "rcpt@example.com"
        "2021-06-02T00:00:00" (.accepted "<mid@mailgun>") sampleDraftDoc
        []).newDoc.archivedTimestamp = "2021-06-02T00:00:00" :=
  ⟨(mailgun_empty_field_still_sends (fun _ => none) "sndr@example.com"
      "rcpt@example.com" "2021-06-02T00:00:00" "<mid@mailgun>" sampleDraftDoc []
      (by decide) (by decide)).1 .requestError,
   (mailgun_empty_field_still_sends (fun _ => none) "sndr@example.com"
      "rcpt@example.com" "2021-06-02T00:00:00" "<mid@mailgun>" sampleDraftDoc []
      (by decide) (by decide)).2⟩

/-- C4 counterexample: a child with `uploadIgnored = true` does contribute an
attachment (carrying the placeholder payload) to the composed message, while
the per-non-placeholder-child attachment list the claim describes is empty
for the same input. -/
theorem mailgun_ignored_child_attached_counterexample :
    (mailgunSend (fun _ => none) "sndr@example.com" "rcpt@example.com"
        "2021-06-02T00:00:00" (.accepted "<mid@mailgun>") sampleDraftDoc
        [sampleIgnoredUpload]).transportMessage.map EmailMessage.attachments =
      some [{ filename := "crash.log", data := UPLOAD_IGNORED_PLACEHOLDER,
              mimeType := "" }] ∧
    buildAttachmentsSpecModel (fun _ => none) [sampleIgnoredUpload] = [] := by
  constructor
  · rfl
  · rfl

/-- C4 amended: for an open record with `hasUploads`, the composed message
carries exactly one attachment per child — ignored (placeholder) children
included — each with the child's filename, its stored data, and the MIME type
guessed from the filename (empty when the guess fails). -/
theorem mailgun_attachment_per_child :
    ∀ g sa rc now tr doc ups, doc.archivedTimestamp = "" → doc.hasUploads = true →
      (mailgunSend g sa rc now tr doc ups).transportMessage.map EmailMessage.attachments =
        some (ups.map (fun u =>
          { filename := u.filename, data := u.data,
            mimeType := (g u.filename).getD "" })) := by
  intro g sa rc now tr doc ups h hu
  unfold mailgunSend
  rw [if_neg (by simp [h])]
  cases tr <;> simp [hu, buildAttachments]

/-- Witness for `mailgun_attachment_per_child` at concrete inputs. -/
theorem mailgun_attachment_per_child_witness :
    (mailgunSend (fun _ => none) "sndr@example.com" "rcpt@example.com"
        "2021-06-02T00:00:00" (.accepted "<mid@mailgun>") sampleDraftDoc
        [sampleIgnoredUpload]).transportMessage.map EmailMessage.attachments =
      some ([sampleIgnoredUpload].map (fun u =>
        { filename := u.filename, data := u.data,
          mimeType := ((fun _ => none : String → Option String) u.filename).getD "" })) :=
  mailgun_attachment_per_child (fun _ => none) "sndr@example.com" "rcpt@example.com"
    "2021-06-02T00:00:00" (.accepted "<mid@mailgun>") sampleDraftDoc
    [sampleIgnoredUpload] (by decide) (by decide)

/-- C7 counterexample: a record whose `archivedTimestamp` is non-empty, whose
`feedbackMessage` is empty and which is old enough is deleted by the orphan
scan, although the claim states records with non-empty `archivedTimestamp`
are not deleted by this scan (`orphanSpecDeletes` does not hold for it). -/
theorem orphan_scan_archived_deleted_counterexample :
    orphanScan 1000 [("doc1", sampleArchivedDraft)] = [] ∧
    ¬ orphanSpecDeletes 1000 sampleArchivedDraft := by
  constructor
  · rfl
  · decide

/-- C7 amended: the orphan scan deletes exactly the records whose
`feedbackMessage` is empty and whose creation timestamp is at least five
minutes in the past; `archivedTimestamp` is not consulted, so archived
records meeting those two conditions are deleted as well. -/
theorem orphan_scan_deletes_exactly :
    ∀ now docs e, e ∈ orphanScan now docs ↔
      e ∈ docs ∧ ¬ (e.2.feedbackMessage = "" ∧ e.2.feedbackTimestamp ≤ now - 300) := by
  intro now docs e
  induction docs with
  | nil => simp [orphanScan]
  | cons hd tl ih =>
    obtain ⟨k, d⟩ := hd
    by_cases hc : d.feedbackMessage = "" ∧ d.feedbackTimestamp ≤ now - 300
    · rw [orphanScan, if_pos hc]
      constructor
      · intro hmem
        obtain ⟨hmem', hne⟩ := ih.mp hmem
        exact ⟨List.mem_cons_of_mem _ hmem', hne⟩
      · rintro ⟨hmem, hne⟩
        rcases List.mem_cons.mp hmem with he | hmem'
        · exact absurd (he ▸ hc) hne
        · exact ih.mpr ⟨hmem', hne⟩
    · rw [orphanScan, if_neg hc]
      constructor
      · intro hmem
        rcases List.mem_cons.mp hmem with he | hmem'
        · exact ⟨he ▸ List.mem_cons_self _ _, he ▸ hc⟩
        · obtain ⟨hmem'', hne⟩ := ih.mp hmem'
          exact ⟨List.mem_cons_of_mem _ hmem'', hne⟩
      · rintro ⟨hmem, hne⟩
        rcases List.mem_cons.mp hmem with he | hmem'
        · exact he ▸ List.mem_cons_self _ _
        · exact List.mem_cons_of_mem _ (ih.mpr ⟨hmem', hne⟩)

/-- C8 counterexample: a concrete successful comment call publishes the
action literal `"feedbackSumitted"` (the source's spelling), which is not the
`"feedbackSubmitted"` literal the claim states. -/
theorem comment_action_literal_counterexample :
    (fmpfeedback_comment "secret" ⟨[], []⟩ 0 "newdoc1" true
        { authUsername := "user@example.com/token", authToken := "secret",
          contentType := "application/json", email := some "user@example.com",
          subject := some "Bug", body := some "It crashed", name := none,
          uploads := none, clientIp := "203.0.113.5" }).published =
      some { feedbackAction := "feedbackSumitted", feedbackDocId := "newdoc1" } ∧
    "feedbackSumitted" ≠ "feedbackSubmitted" := by
  constructor
  · rfl
  · decide

/-- C8 amended: every notification event a comment call publishes carries the
action literal `"feedbackSumitted"`; the Pub/Sub dispatch of the mailgun
handler delivers exactly the two literals `"feedbackSumitted"` and
`"caretakerRetry"` and classifies any other non-empty action as a foreign
message to ignore (a normal, non-failing return). -/
theorem comment_action_published_and_recognized :
    (∀ cfg s now newId pOk req m,
       (fmpfeedback_comment cfg s now newId pOk req).published = some m →
       m.feedbackAction = FEEDBACK_PUBSUB_ACTION_NEWFEEDBACK) ∧
    (∀ i, i ≠ "" →
       pubsubDispatch (some FEEDBACK_PUBSUB_ACTION_NEWFEEDBACK) (some i) = .deliver i ∧
       pubsubDispatch (some FEEDBACK_PUBSUB_ACTION_CARETAKER_RETRY) (some i) = .deliver i) ∧
    (∀ a d, a ≠ "" → a ≠ FEEDBACK_PUBSUB_ACTION_NEWFEEDBACK →
       a ≠ FEEDBACK_PUBSUB_ACTION_CARETAKER_RETRY →
       pubsubDispatch (some a) d = .ignoredForeignAction) := by
  refine ⟨?_, ?_, ?_⟩
  · intro cfg s now newId pOk req m h
    unfold fmpfeedback_comment at h
    by_cases h1 : req.contentType ≠ "application/json"
    · rw [if_pos h1] at h
      exact Option.noConfusion h
    rw [if_neg h1] at h
    by_cases h2 : req.authToken = ""
    · rw [if_pos h2] at h
      exact Option.noConfusion h
    rw [if_neg h2] at h
    by_cases h3 : req.authToken ≠ cfg
    · rw [if_pos h3] at h
      exact Option.noConfusion h
    rw [if_neg h3] at h
    rcases hem : req.email with _ | email <;> rw [hem] at h <;>
      rcases hsj : req.subject with _ | subject <;> rw [hsj] at h <;>
      rcases hbd : req.body with _ | body <;> rw [hbd] at h <;>
      dsimp only [] at h
    all_goals try exact Option.noConfusion h
    by_cases h4 : email = ""
    · rw [if_pos h4] at h
      exact Option.noConfusion h
    rw [if_neg h4] at h
    by_cases h5 : subject = ""
    · rw [if_pos h5] at h
      exact Option.noConfusion h
    rw [if_neg h5] at h
    by_cases h6 : body = ""
    · rw [if_pos h6] at h
      exact Option.noConfusion h
    rw [if_neg h6] at h
    by_cases h7 : req.authUsername = ""
    · rw [if_pos h7] at h
      exact Option.noConfusion h
    rw [if_neg h7] at h
    by_cases h8 : req.authUsername ≠ email ++ "/token"
    · rw [if_pos h8] at h
      exact Option.noConfusion h
    rw [if_neg h8] at h
    rcases hft : firstUploadToken req.uploads with _ | t <;> rw [hft] at h <;>
      dsimp only [] at h
    · by_cases h9 : countOpenFor s.docs email ≥ FEEDBACK_MAX_PENDING_SUBMITS
      · rw [if_pos h9] at h
        exact Option.noConfusion h
      rw [if_neg h9] at h
      by_cases hp : pOk = true
      · rw [if_pos hp] at h
        exact congrArg PubsubMsg.feedbackAction (Option.some.inj h).symm
      · rw [if_neg hp] at h
        exact Option.noConfusion h
    · rcases hlk : s.docs.lookup t with _ | d <;> rw [hlk] at h <;>
        dsimp only [] at h
      · exact Option.noConfusion h
      · by_cases hp : pOk = true
        · rw [if_pos hp] at h
          exact congrArg PubsubMsg.feedbackAction (Option.some.inj h).symm
        · rw [if_neg hp] at h
          exact Option.noConfusion h
  · intro i hi
    constructor
    · simp only [pubsubDispatch]
      rw [if_neg (by decide), if_neg (by decide), if_neg hi]
    · simp only [pubsubDispatch]
      rw [if_neg (by decide), if_neg (by decide), if_neg hi]
  · intro a d ha hn hc
    simp only [pubsubDispatch]
    rw [if_neg ha, if_pos ⟨hn, hc⟩]

/-- Witness for `comment_action_published_and_recognized` at concrete
inputs. -/
theorem comment_action_published_and_recognized_witness :
    (PubsubMsg.feedbackAction
        { feedbackAction := "feedbackSumitted", feedbackDocId := "newdoc1" } =
      FEEDBACK_PUBSUB_ACTION_NEWFEEDBACK) ∧
    (pubsubDispatch (some FEEDBACK_PUBSUB_ACTION_NEWFEEDBACK) (some "doc1") =
        .deliver "doc1" ∧
      pubsubDispatch (some FEEDBACK_PUBSUB_ACTION_CARETAKER_RETRY) (some "doc1") =
        .deliver "doc1") ∧
    pubsubDispatch (some "otherAction") (some "doc1") = .ignoredForeignAction :=
  ⟨comment_action_published_and_recognized.1 "secret" ⟨[], []⟩ 0 "newdoc1" true
      { authUsername := "user@example.com/token", authToken := "secret",
        contentType := "application/json", email := some "user@example.com",
        subject := some "Bug", body := some "It crashed", name := none,
        uploads := none, clientIp := "203.0.113.5" }
      { feedbackAction := "feedbackSumitted", feedbackDocId := "newdoc1" } (by decide),
   comment_action_published_and_recognized.2.1 "doc1" (by decide),
   comment_action_published_and_recognized.2.2 "otherAction" (some "doc1")
     (by decide) (by decide) (by decide)⟩

/-- C9: a comment call that passes authentication and validation and carries
a correlation token updates the referenced record with subject, message (and
optional name) unconditionally: the hypothesis that the record's stored
`feedbackEmail` differs from the authenticated caller's email is never used,
so a caller holding another user's token finalizes that other user's
record. -/
theorem comment_token_no_ownership_check (cfg : String) (s : Store) (now : Int)
    (newId : String) (req : CommentRequest) (email subject body t : String)
    (d : FeedbackDoc)
    (hct : req.contentType = "application/json")
    (htk : req.authToken ≠ "") (hcfg : req.authToken = cfg)
    (he : req.email = some email) (hs : req.subject = some subject)
    (hb : req.body = some body)
    (hene : email ≠ "") (hsne : subject ≠ "") (hbne : body ≠ "")
    (hau : req.authUsername = email ++ "/token")
    (hname : req.name = none)
    (hups : firstUploadToken req.uploads = some t)
    (hlk : s.docs.lookup t = some d)
    (hmismatch : d.feedbackEmail ≠ email) :
    fmpfeedback_comment cfg s now newId true req =
      ⟨.okResp,
        { s with docs := setDoc s.docs t ({ d with feedbackSubject := subject, feedbackMessage := body }) },
        some ⟨FEEDBACK_PUBSUB_ACTION_NEWFEEDBACK, t⟩⟩ := by
  unfold fmpfeedback_comment
  rw [if_neg (by simp [hct]), if_neg htk, if_neg (by simp [hcfg]), he, hs, hb]
  dsimp only []
  rw [if_neg hene, if_neg hsne, if_neg hbne,
    if_neg (by rw [hau]; exact append_token_ne_empty email),
    if_neg (by simp [hau]), hups]
  dsimp only []
  rw [hlk]
  dsimp only []
  rw [hname]
  dsimp only []
  rw [if_pos rfl]

/-- Witness for `comment_token_no_ownership_check`: a concrete caller whose
email differs from the one stored on the referenced record. -/
theorem comment_token_no_ownership_check_witness :
    fmpfeedback_comment "secret" ⟨[("tok1", sampleDraftDoc)], []⟩ 0 "newdoc1" true
        { authUsername := "other@example.com/token", authToken := "secret",
          contentType := "application/json", email := some "other@example.com",
          subject := some "Takeover", body := some "Hijacked", name := none,
          uploads := some ["tok1"], clientIp := "203.0.113.5" } =
      ⟨.okResp,
        { docs := setDoc [("tok1", sampleDraftDoc)] "tok1" ({ sampleDraftDoc with feedbackSubject := "Takeover", feedbackMessage := "Hijacked" }),
          uploads := [] },
        some ⟨FEEDBACK_PUBSUB_ACTION_NEWFEEDBACK, "tok1"⟩⟩ :=
  comment_token_no_ownership_check "secret" ⟨[("tok1", sampleDraftDoc)], []⟩ 0 "newdoc1"
    { authUsername := "other@example.com/token", authToken := "secret",
      contentType := "application/json", email := some "other@example.com",
      subject := some "Takeover", body := some "Hijacked", name := none,
      uploads := some ["tok1"], clientIp := "203.0.113.5" }
    "other@example.com" "Takeover" "Hijacked" "tok1" sampleDraftDoc
    (by decide) (by decide) (by decide) (by decide) (by decide) (by decide)
    (by decide) (by decide) (by decide) (by decide) (by decide) (by decide)
    (by decide) (by decide)

/-- C6: an upload call without a correlation token, and a comment call
without one, each fail with the plain-text `TOO MUCH FEEDBACK` error (HTTP
400 in the source) and leave the store unchanged — no feedback record and no
child upload created — whenever the caller's email already has
`FEEDBACK_MAX_PENDING_SUBMITS` (5) or more open records (records whose
`archivedTimestamp` is empty). -/
theorem quota_exceeded_rejects :
    (∀ cfg s now newId req fname,
       req.authUsername ≠ "" →
       removeSuffix req.authUsername "/token" ≠ req.authUsername →
       req.authToken ≠ "" → req.authToken = cfg →
       req.filename = some fname → fname ≠ "" →
       req.contentType = "application/binary" → req.data ≠ "" →
       req.data.length ≤ FEEDBACK_MAX_UPLOAD_SIZE →
       normalizeToken req.token = none →
       FEEDBACK_MAX_PENDING_SUBMITS ≤
         countOpenFor s.docs (removeSuffix req.authUsername "/token") →
       fmpfeedback_upload cfg s now newId req = ⟨.err "TOO MUCH FEEDBACK", s⟩) ∧
    (∀ cfg s now newId pOk req email subject body,
       req.contentType = "application/json" →
       req.authToken ≠ "" → req.authToken = cfg →
       req.email = some email → req.subject = some subject → req.body = some body →
       email ≠ "" → subject ≠ "" → body ≠ "" →
       req.authUsername = email ++ "/token" →
       firstUploadToken req.uploads = none →
       FEEDBACK_MAX_PENDING_SUBMITS ≤ countOpenFor s.docs email →
       fmpfeedback_comment cfg s now newId pOk req =
         ⟨.err "TOO MUCH FEEDBACK", s, none⟩) := by
  constructor
  · intro cfg s now newId req fname hu hne ht hcfg hf hfne hct hd hsz hnt hq
    unfold fmpfeedback_upload
    dsimp only []
    rw [if_neg hu, if_neg hne, if_neg ht, if_neg (by simp [hcfg]), hf]
    dsimp only []
    rw [if_neg hfne, if_neg (by simp [hct]), if_neg hd,
      if_neg (Nat.not_lt.mpr hsz), hnt]
    dsimp only []
    rw [if_pos hq]
  · intro cfg s now newId pOk req email subject body hct ht hcfg he hs hb hene
      hsne hbne hau hnt hq
    unfold fmpfeedback_comment
    rw [if_neg (by simp [hct]), if_neg ht, if_neg (by simp [hcfg]), he, hs, hb]
    dsimp only []
    rw [if_neg hene, if_neg hsne, if_neg hbne,
      if_neg (by rw [hau]; exact append_token_ne_empty email),
      if_neg (by simp [hau]), hnt]
    dsimp only []
    rw [if_pos hq]

/-- Witness for `quota_exceeded_rejects`: a store holding five open records
for one email rejects both a token-less upload and a token-less comment. -/
theorem quota_exceeded_rejects_witness :
    (fmpfeedback_upload "secret"
        ⟨[("a", sampleOpenDoc), ("b", sampleOpenDoc), ("c", sampleOpenDoc),
          ("d", sampleOpenDoc), ("e", sampleOpenDoc)], []⟩ 0 "newdoc1"
        { authUsername := "user@example.com/token", authToken := "secret",
          filename := some "shot.png", contentType := "application/binary",
          data := "bytes", token := none, clientIp := "203.0.113.5" } =
      ⟨.err "TOO MUCH FEEDBACK",
        ⟨[("a", sampleOpenDoc), ("b", sampleOpenDoc), ("c", sampleOpenDoc),
          ("d", sampleOpenDoc), ("e", sampleOpenDoc)], []⟩⟩) ∧
    (fmpfeedback_comment "secret"
        ⟨[("a", sampleOpenDoc), ("b", sampleOpenDoc), ("c", sampleOpenDoc),
          ("d", sampleOpenDoc), ("e", sampleOpenDoc)], []⟩ 0 "newdoc1" true
        { authUsername := "user@example.com/token", authToken := "secret",
          contentType := "application/json", email := some "user@example.com",
          subject := some "Bug", body := some "It crashed", name := none,
          uploads := none, clientIp := "203.0.113.5" } =
      ⟨.err "TOO MUCH FEEDBACK",
        ⟨[("a", sampleOpenDoc), ("b", sampleOpenDoc), ("c", sampleOpenDoc),
          ("d", sampleOpenDoc), ("e", sampleOpenDoc)], []⟩, none⟩) :=
  ⟨quota_exceeded_rejects.1 "secret"
      ⟨[("a", sampleOpenDoc), ("b", sampleOpenDoc), ("c", sampleOpenDoc),
        ("d", sampleOpenDoc), ("e", sampleOpenDoc)], []⟩ 0 "newdoc1"
      { authUsername := "user@example.com/token", authToken := "secret",
        filename := some "shot.png", contentType := "application/binary",
        data := "bytes", token := none, clientIp := "203.0.113.5" } "shot.png"
      (by decide) (by decide) (by decide) (by decide) (by decide) (by decide)
      (by decide) (by decide) (by decide) (by decide) (by decide),
   quota_exceeded_rejects.2 "secret"
      ⟨[("a", sampleOpenDoc), ("b", sampleOpenDoc), ("c", sampleOpenDoc),
        ("d", sampleOpenDoc), ("e", sampleOpenDoc)], []⟩ 0 "newdoc1" true
      { authUsername := "user@example.com/token", authToken := "secret",
        contentType := "application/json", email := some "user@example.com",
        subject := some "Bug", body := some "It crashed", name := none,
        uploads := none, clientIp := "203.0.113.5" }
      "user@example.com" "Bug" "It crashed"
      (by decide) (by decide) (by decide) (by decide) (by decide) (by decide)
      (by decide) (by decide) (by decide) (by decide) (by decide) (by decide)⟩

/-- An upload call that passes authentication and input validation reduces to
the token dispatch of the handler's persistence step. -/
theorem fmpfeedback_upload_validated (cfg : String) (s : Store) (now : Int)
    (newId : String) (req : UploadRequest) (fname : String)
    (hu : req.authUsername ≠ "")
    (hne : removeSuffix req.authUsername "/token" ≠ req.authUsername)
    (ht : req.authToken ≠ "") (hcfg : req.authToken = cfg)
    (hf : req.filename = some fname) (hfne : fname ≠ "")
    (hct : req.contentType = "application/binary") (hd : req.data ≠ "")
    (hsz : req.data.length ≤ FEEDBACK_MAX_UPLOAD_SIZE) :
    fmpfeedback_upload cfg s now newId req =
      match normalizeToken req.token with
      | some t =>
        let u : UploadDoc :=
          if (s.uploadsOf t).length ≥ FEEDBACK_MAX_UPLOADS then
            { filename := fname
              data := UPLOAD_IGNORED_PLACEHOLDER
              contentLength := UPLOAD_IGNORED_PLACEHOLDER.length
              uploadIgnored := true }
          else
            { filename := fname
              data := req.data
              contentLength := req.data.length
              uploadIgnored := false }
        ⟨.ok t, { s with uploads := addUpload s.uploads t u }⟩
      | none =>
        if countOpenFor s.docs (removeSuffix req.authUsername "/token") ≥
            FEEDBACK_MAX_PENDING_SUBMITS then
          ⟨.err "TOO MUCH FEEDBACK", s⟩
        else
          ⟨.ok newId,
            { docs := s.docs ++
                [(newId,
                  { FEEDBACK_EMPTY_DOC with
                    feedbackEmail := removeSuffix req.authUsername "/token"
                    feedbackTimestamp := now
                    clientIp := req.clientIp
                    hasUploads := true })],
              uploads := addUpload s.uploads newId
                { filename := fname
                  data := req.data
                  contentLength := req.data.length
                  uploadIgnored := false } }⟩ := by
  unfold fmpfeedback_upload
  dsimp only []
  rw [if_neg hu, if_neg hne, if_neg ht, if_neg (by simp [hcfg]), hf]
  dsimp only []
  rw [if_neg hfne, if_neg (by simp [hct]), if_neg hd, if_neg (Nat.not_lt.mpr hsz)]

/-- C5: an upload call that passes authentication and validation and carries
a correlation token whose record already has `FEEDBACK_MAX_UPLOADS` (10) or
more non-placeholder children still succeeds (it returns the token, never an
error) and persists exactly one new child with `uploadIgnored = true` and the
placeholder payload; moreover every upload call preserves the invariant that
no record has more than 10 non-placeholder children (given a fresh generated
id for the creation path). -/
theorem upload_over_limit_ignored_and_cap :
    (∀ cfg s now newId req fname t,
       req.authUsername ≠ "" →
       removeSuffix req.authUsername "/token" ≠ req.authUsername →
       req.authToken ≠ "" → req.authToken = cfg →
       req.filename = some fname → fname ≠ "" →
       req.contentType = "application/binary" → req.data ≠ "" →
       req.data.length ≤ FEEDBACK_MAX_UPLOAD_SIZE →
       normalizeToken req.token = some t →
       FEEDBACK_MAX_UPLOADS ≤ nonPlaceholderCount (s.uploadsOf t) →
       fmpfeedback_upload cfg s now newId req =
         ⟨.ok t, { s with uploads := addUpload s.uploads t ({ filename := fname, data := UPLOAD_IGNORED_PLACEHOLDER, contentLength := UPLOAD_IGNORED_PLACEHOLDER.length, uploadIgnored := true }) }⟩) ∧
    (∀ cfg s now newId req,
       s.uploads.lookup newId = none →
       (∀ k, nonPlaceholderCount (s.uploadsOf k) ≤ FEEDBACK_MAX_UPLOADS) →
       ∀ k, nonPlaceholderCount
           ((fmpfeedback_upload cfg s now newId req).store.uploadsOf k) ≤
         FEEDBACK_MAX_UPLOADS) := by
  have hMU : FEEDBACK_MAX_UPLOADS = 10 := rfl
  constructor
  · intro cfg s now newId req fname t hu hne ht hcfg hf hfne hct hd hsz htok hcount
    have hlen : FEEDBACK_MAX_UPLOADS ≤ (s.uploadsOf t).length :=
      le_trans hcount (nonPlaceholderCount_le_length _)
    rw [fmpfeedback_upload_validated cfg s now newId req fname hu hne ht hcfg hf
      hfne hct hd hsz, htok]
    dsimp only []
    rw [if_pos hlen]
  · intro cfg s now newId req hfresh hinv k
    unfold fmpfeedback_upload
    dsimp only []
    by_cases h1 : req.authUsername = ""
    · rw [if_pos h1]; exact hinv k
    rw [if_neg h1]
    by_cases h2 : removeSuffix req.authUsername "/token" = req.authUsername
    · rw [if_pos h2]; exact hinv k
    rw [if_neg h2]
    by_cases h3 : req.authToken = ""
    · rw [if_pos h3]; exact hinv k
    rw [if_neg h3]
    by_cases h4 : req.authToken ≠ cfg
    · rw [if_pos h4]; exact hinv k
    rw [if_neg h4]
    rcases hf : req.filename with _ | fname
    · exact hinv k
    dsimp only []
    by_cases h5 : fname = ""
    · rw [if_pos h5]; exact hinv k
    rw [if_neg h5]
    by_cases h6 : req.contentType ≠ "application/binary"
    · rw [if_pos h6]; exact hinv k
    rw [if_neg h6]
    by_cases h7 : req.data = ""
    · rw [if_pos h7]; exact hinv k
    rw [if_neg h7]
    by_cases h8 : req.data.length > FEEDBACK_MAX_UPLOAD_SIZE
    · rw [if_pos h8]; exact hinv k
    rw [if_neg h8]
    rcases htok : normalizeToken req.token with _ | t <;> dsimp only []
    · by_cases h9 : countOpenFor s.docs (removeSuffix req.authUsername "/token") ≥
          FEEDBACK_MAX_PENDING_SUBMITS
      · rw [if_pos h9]; exact hinv k
      rw [if_neg h9]
      dsimp only [Store.uploadsOf]
      rw [lookup_addUpload]
      by_cases hk : k = newId
      · rw [if_pos hk, hfresh]
        simp [nonPlaceholderCount, List.countP_cons, hMU]
      · rw [if_neg hk]
        exact hinv k
    · by_cases h10 : (s.uploadsOf t).length ≥ FEEDBACK_MAX_UPLOADS
      · rw [if_pos h10]
        dsimp only [Store.uploadsOf]
        rw [lookup_addUpload]
        by_cases hk : k = t
        · rw [if_pos hk, Option.getD_some, nonPlaceholderCount_append]
          have hcap := hinv t
          dsimp only [Store.uploadsOf] at hcap
          simpa using hcap
        · rw [if_neg hk]
          exact hinv k
      · rw [if_neg h10]
        dsimp only [Store.uploadsOf]
        rw [lookup_addUpload]
        by_cases hk : k = t
        · rw [if_pos hk, Option.getD_some, nonPlaceholderCount_append]
          have hle := nonPlaceholderCount_le_length ((s.uploads.lookup t).getD [])
          have hlt : (s.uploadsOf t).length < FEEDBACK_MAX_UPLOADS :=
            Nat.lt_of_not_le h10
          dsimp only [Store.uploadsOf] at hlt
          simp only [Bool.false_eq_true, if_false]
          omega
        · rw [if_neg hk]
          exact hinv k

/-- Witness for `upload_over_limit_ignored_and_cap`: a record with ten
accepted children receives an eleventh upload as an ignored placeholder, and
the non-placeholder cap holds after a concrete call. -/
theorem upload_over_limit_ignored_and_cap_witness :
    (fmpfeedback_upload "secret" ⟨[("tok1", sampleDraftDoc)],
        [("tok1", List.replicate 10 sampleAcceptedUpload)]⟩ 0 "newdoc1"
        { authUsername := "user@example.com/token", authToken := "secret",
          filename := some "extra.png", contentType := "application/binary",
          data := "bytes", token := some "tok1", clientIp := "203.0.113.5" } =
      ⟨.ok "tok1",
        { docs := [("tok1", sampleDraftDoc)],
          uploads := addUpload [("tok1", List.replicate 10 sampleAcceptedUpload)] "tok1"
            { filename := "extra.png", data := UPLOAD_IGNORED_PLACEHOLDER,
              contentLength := UPLOAD_IGNORED_PLACEHOLDER.length,
              uploadIgnored := true } }⟩) ∧
    nonPlaceholderCount
        ((fmpfeedback_upload "secret" ⟨[("tok1", sampleDraftDoc)],
            [("tok1", List.replicate 10 sampleAcceptedUpload)]⟩ 0 "newdoc1"
            { authUsername := "user@example.com/token", authToken := "secret",
              filename := some "extra.png", contentType := "application/binary",
              data := "bytes", token := some "tok1",
              clientIp := "203.0.113.5" }).store.uploadsOf "tok1") ≤
      FEEDBACK_MAX_UPLOADS :=
  ⟨upload_over_limit_ignored_and_cap.1 "secret" ⟨[("tok1", sampleDraftDoc)],
      [("tok1", List.replicate 10 sampleAcceptedUpload)]⟩ 0 "newdoc1"
      { authUsername := "user@example.com/token", authToken := "secret",
        filename := some "extra.png", contentType := "application/binary",
        data := "bytes", token := some "tok1", clientIp := "203.0.113.5" }
      "extra.png" "tok1"
      (by decide) (by decide) (by decide) (by decide) (by decide) (by decide)
      (by decide) (by decide) (by decide) (by decide) (by decide),
   upload_over_limit_ignored_and_cap.2 "secret" ⟨[("tok1", sampleDraftDoc)],
      [("tok1", List.replicate 10 sampleAcceptedUpload)]⟩ 0 "newdoc1"
      { authUsername := "user@example.com/token", authToken := "secret",
        filename := some "extra.png", contentType := "application/binary",
        data := "bytes", token := some "tok1", clientIp := "203.0.113.5" }
      (by decide)
      (by
        intro k
        dsimp only [Store.uploadsOf]
        by_cases hk : k = "tok1"
        · subst hk
          decide
        · have hb : (k == "tok1") = false := beq_eq_false_iff_ne.mpr hk
          simp [List.lookup, hb, nonPlaceholderCount])
      "tok1"⟩

/-- C10: every child upload persisted by a validated upload call has
`contentLength` equal to the length of the data payload actually stored: the
uploaded bytes for an accepted child, the placeholder string for an ignored
child. -/
theorem upload_child_contentLength (cfg : String) (s : Store) (now : Int)
    (newId : String) (req : UploadRequest) (fname : String)
    (hu : req.authUsername ≠ "")
    (hne : removeSuffix req.authUsername "/token" ≠ req.authUsername)
    (ht : req.authToken ≠ "") (hcfg : req.authToken = cfg)
    (hf : req.filename = some fname) (hfne : fname ≠ "")
    (hct : req.contentType = "application/binary") (hd : req.data ≠ "")
    (hsz : req.data.length ≤ FEEDBACK_MAX_UPLOAD_SIZE) :
    ∀ tk, (fmpfeedback_upload cfg s now newId req).response = .ok tk →
      ∃ u, (fmpfeedback_upload cfg s now newId req).store.uploadsOf tk =
          s.uploadsOf tk ++ [u] ∧
        u.contentLength = u.data.length ∧
        (u.uploadIgnored = true → u.data = UPLOAD_IGNORED_PLACEHOLDER) ∧
        (u.uploadIgnored = false → u.data = req.data) := by
  intro tk h
  rw [fmpfeedback_upload_validated cfg s now newId req fname hu hne ht hcfg hf
    hfne hct hd hsz] at h ⊢
  rcases htok : normalizeToken req.token with _ | t <;> rw [htok] at h <;>
    dsimp only [] at h ⊢
  · by_cases h9 : countOpenFor s.docs (removeSuffix req.authUsername "/token") ≥
        FEEDBACK_MAX_PENDING_SUBMITS
    · rw [if_pos h9] at h
      exact UploadResponse.noConfusion h
    · rw [if_neg h9] at h ⊢
      obtain rfl : newId = tk := UploadResponse.ok.inj h
      refine ⟨⟨fname, req.data, req.data.length, false⟩, ?_, rfl,
        fun hx => Bool.noConfusion hx, fun _ => rfl⟩
      dsimp only [Store.uploadsOf]
      rw [lookup_addUpload, if_pos rfl, Option.getD_some]
  · by_cases h10 : (s.uploadsOf t).length ≥ FEEDBACK_MAX_UPLOADS
    · rw [if_pos h10]
      obtain rfl : t = tk := UploadResponse.ok.inj h
      refine ⟨⟨fname, UPLOAD_IGNORED_PLACEHOLDER, UPLOAD_IGNORED_PLACEHOLDER.length, true⟩,
        ?_, rfl, fun _ => rfl, fun hx => Bool.noConfusion hx⟩
      dsimp only [Store.uploadsOf]
      rw [lookup_addUpload, if_pos rfl, Option.getD_some]
    · rw [if_neg h10]
      obtain rfl : t = tk := UploadResponse.ok.inj h
      refine ⟨⟨fname, req.data, req.data.length, false⟩, ?_, rfl,
        fun hx => Bool.noConfusion hx, fun _ => rfl⟩
      dsimp only [Store.uploadsOf]
      rw [lookup_addUpload, if_pos rfl, Option.getD_some]

/-- Witness for `upload_child_contentLength` at concrete inputs. -/
theorem upload_child_contentLength_witness :
    ∃ u, (fmpfeedback_upload "secret" ⟨[("tok1", sampleDraftDoc)],
          [("tok1", List.replicate 10 sampleAcceptedUpload)]⟩ 0 "newdoc1"
          { authUsername := "user@example.com/token", authToken := "secret",
            filename := some "extra.png", contentType := "application/binary",
            data := "bytes", token := some "tok1",
            clientIp := "203.0.113.5" }).store.uploadsOf "tok1" =
        Store.uploadsOf ⟨[("tok1", sampleDraftDoc)],
          [("tok1", List.replicate 10 sampleAcceptedUpload)]⟩ "tok1" ++ [u] ∧
      u.contentLength = u.data.length ∧
      (u.uploadIgnored = true → u.data = UPLOAD_IGNORED_PLACEHOLDER) ∧
      (u.uploadIgnored = false → u.data = "bytes") :=
  upload_child_contentLength "secret" ⟨[("tok1", sampleDraftDoc)],
      [("tok1", List.replicate 10 sampleAcceptedUpload)]⟩ 0 "newdoc1"
    { authUsername := "user@example.com/token", authToken := "secret",
      filename := some "extra.png", contentType := "application/binary",
      data := "bytes", token := some "tok1", clientIp := "203.0.113.5" }
    "extra.png"
    (by decide) (by decide) (by decide) (by decide) (by decide) (by decide)
    (by decide) (by decide) (by decide) "tok1" (by decide)

end FMPFeedback
